import Mathlib

/-!
Shallow embedding of the change-detection core of web-scrobbler:
src/core/content/connector.js (BaseConnector), together with the
spec-modelled pieces of repository code that connector.js calls but that is
not present under src/ (Util.throttle, Util.escapeBadTimeValues,
MetadataFilter.filterField, SongPipeline.process).

JavaScript field values are modelled by the type JSVal; JS truthiness by
the function truthy.  Time values are modelled as integers (seconds):
Util.stringToSeconds yields integer second counts or null, so NaN and
fractional numbers are outside the modelled domain.
-/

/-- A JavaScript value as stored in a connector state field: null/undefined
(absence), a string, a number (integer seconds), or a boolean. -/
inductive JSVal where
  | null : JSVal
  | str : String → JSVal
  | num : Int → JSVal
  | bool : Bool → JSVal
deriving DecidableEq, Repr

/-- JavaScript truthiness of a JSVal. -/
def truthy : JSVal → Bool
  | JSVal.null => false
  | JSVal.str s => s != ""
  | JSVal.num n => n != 0
  | JSVal.bool b => b

/-- JavaScript a || b restricted to JSVal operands: the left operand when
truthy, otherwise the right one. -/
def jsOr (a b : JSVal) : JSVal := if truthy a then a else b

/-- JavaScript subtraction on state fields; both operands are numbers at
every use site (guarded by truthiness checks on values produced by
Util.stringToSeconds), other operand shapes are outside the modelled
domain. -/
def jsSub (a b : JSVal) : JSVal :=
  match a, b with
  | JSVal.num x, JSVal.num y => JSVal.num (x - y)
  | _, _ => JSVal.null

/-- Math.abs on a numeric JSVal. -/
def jsAbs : JSVal → JSVal
  | JSVal.num x => JSVal.num (if x < 0 then -x else x)
  | v => v

/-- The keys of the connector state objects (defaultState / currentState /
filteredState in connector.js).  getCurrentState also reads originUrl, but
originUrl is not a key of defaultState, so the diff loop of
stateChangedWorker (for key in currentState) never visits it; it is
therefore omitted from the state model. -/
inductive FieldKey where
  | track | artist | album | uniqueID | duration | currentTime | isPlaying | trackArt
deriving DecidableEq, Repr

/-- The key list of the state objects, in declaration order
(connector.js:422-431); Object.keys(defaultState) enumerates exactly
these. -/
def FieldKey.all : List FieldKey :=
  [FieldKey.track, FieldKey.artist, FieldKey.album, FieldKey.uniqueID,
   FieldKey.duration, FieldKey.currentTime, FieldKey.isPlaying, FieldKey.trackArt]

/-- A full state snapshot: one JSVal per key. -/
structure TState where
  track : JSVal
  artist : JSVal
  album : JSVal
  uniqueID : JSVal
  duration : JSVal
  currentTime : JSVal
  isPlaying : JSVal
  trackArt : JSVal
deriving DecidableEq, Repr

/-- Read a snapshot field by key. -/
def TState.get (s : TState) : FieldKey → JSVal
  | FieldKey.track => s.track
  | FieldKey.artist => s.artist
  | FieldKey.album => s.album
  | FieldKey.uniqueID => s.uniqueID
  | FieldKey.duration => s.duration
  | FieldKey.currentTime => s.currentTime
  | FieldKey.isPlaying => s.isPlaying
  | FieldKey.trackArt => s.trackArt

/-- defaultState (connector.js:422-431): every field null except
isPlaying, which defaults to true. -/
def defaultState : TState :=
  { track := JSVal.null, artist := JSVal.null, album := JSVal.null,
    uniqueID := JSVal.null, duration := JSVal.null, currentTime := JSVal.null,
    isPlaying := JSVal.bool true, trackArt := JSVal.null }

/-- One reading of the FieldExtractor capability: the values the connector
getters return at one instant.  getArtistTrack is modelled after the
fallback `this.getArtistTrack() || Util.makeEmptyArtistTrack()` has been
applied, i.e. as the (artist, track) pair with nulls standing for a
missing/empty object.  getTimeInfo is the (currentTime, duration) pair
returned by the timeInfo getter. -/
structure Extractor where
  getTrack : JSVal
  getArtist : JSVal
  getAlbum : JSVal
  getUniqueID : JSVal
  getDuration : JSVal
  getCurrentTime : JSVal
  getRemainingTime : JSVal
  getArtistTrack : JSVal × JSVal
  getTimeInfo : JSVal × JSVal
  readIsPlaying : Bool
  getTrackArt : JSVal
  isScrobblingAllowed : Bool
  isStateChangeAllowed : Bool

/-- getCurrentState (connector.js:284-321): gather all getters into a fresh
state object, then apply the fallbacks in source order: artist/track from
the combined artist-track getter, currentTime from
duration - Math.abs(remainingTime), and finally duration/currentTime from
the combined timeInfo getter. -/
def getCurrentState (e : Extractor) : TState :=
  let s0 : TState :=
    { track := e.getTrack, artist := e.getArtist, album := e.getAlbum,
      uniqueID := e.getUniqueID, duration := e.getDuration,
      currentTime := e.getCurrentTime, isPlaying := JSVal.bool e.readIsPlaying,
      trackArt := e.getTrackArt }
  let s1 := if !truthy s0.artist && truthy e.getArtistTrack.1 then
      { s0 with artist := e.getArtistTrack.1 } else s0
  let s2 := if !truthy s1.track && truthy e.getArtistTrack.2 then
      { s1 with track := e.getArtistTrack.2 } else s1
  let s3 := if !truthy s2.currentTime then
      (if truthy e.getRemainingTime && truthy s2.duration then
        { s2 with currentTime := jsSub s2.duration (jsAbs e.getRemainingTime) }
      else s2)
    else s2
  let s4 := if !truthy s3.duration && truthy e.getTimeInfo.2 then
      { s3 with duration := e.getTimeInfo.2 } else s3
  let s5 := if !truthy s4.currentTime && truthy e.getTimeInfo.1 then
      { s4 with currentTime := e.getTimeInfo.1 } else s4
  s5

/-- The per-key substitution of the diff loop of stateChangedWorker
(connector.js:467-473): the freshly extracted value is kept when it is
truthy or the boolean false; every other falsy value is replaced by the
field default. -/
def substValue (ns : TState) (k : FieldKey) : JSVal :=
  if truthy (ns.get k) || ns.get k == JSVal.bool false then ns.get k
  else defaultState.get k

/-- The ChangeSet of one evaluation (connector.js:467-480): the keys of
currentState, in declaration order, whose substituted new value differs
(strict equality) from the stored raw value. -/
def changedFieldsOf (ns cur : TState) : List FieldKey :=
  FieldKey.all.filter (fun k => substValue ns k != cur.get k)

/-- The raw snapshot after the diff loop: every key holds its substituted
new value (the loop writes a key only when the value differs, which yields
the same snapshot). -/
def updatedCurrent (ns : TState) : TState :=
  { track := substValue ns FieldKey.track, artist := substValue ns FieldKey.artist,
    album := substValue ns FieldKey.album, uniqueID := substValue ns FieldKey.uniqueID,
    duration := substValue ns FieldKey.duration,
    currentTime := substValue ns FieldKey.currentTime,
    isPlaying := substValue ns FieldKey.isPlaying,
    trackArt := substValue ns FieldKey.trackArt }

/-- Modelled from the spec: MetadataFilter.filterField is repository code
not present under src/.  Per the spec, a filter is an ordered chain of text
transforms per field, and applying a filter to an absent/empty value yields
the field default rather than an empty string; on a non-empty string the
transforms for the field are applied in order. -/
def filterField (transforms : FieldKey → List (String → String)) (k : FieldKey)
    (v : JSVal) : JSVal :=
  match v with
  | JSVal.str s =>
      if s = "" then JSVal.null
      else JSVal.str ((transforms k).foldl (fun t f => f t) s)
  | _ => JSVal.null

/-- Modelled from the spec: Util.escapeBadTimeValues is repository code not
present under src/.  Per the spec, currentTime/duration pass through an
escape-bad-time-values guard mapping negative (or NaN, outside the integer
model) values to the default; non-numeric values are absent and map to the
default as well. -/
def escapeBadTimeValues : JSVal → JSVal
  | JSVal.num x => if x < 0 then JSVal.null else JSVal.num x
  | _ => JSVal.null

/-- The per-connector configuration of the parts of BaseConnector that the
state machinery calls: the metadata filter (as its per-field transform
chains), the isTrackArtDefault predicate, and whether a reactor callback is
attached (reactorCallback !== null). -/
structure Conn where
  transforms : FieldKey → List (String → String)
  isTrackArtDefault : JSVal → Bool
  hasReactorCallback : Bool

/-- The mutable per-connector state: the raw currentState snapshot, the
filteredState snapshot, and the isStateReset flag
(connector.js:437-451). -/
structure ConnState where
  currentState : TState
  filteredState : TState
  isStateReset : Bool
deriving DecidableEq, Repr

/-- One reactor callback invocation: the payload object (some filtered
snapshot on a state change, none for the empty object passed on reset) and
the changed-fields list. -/
structure ReactorCall where
  payload : Option TState
  changedFields : List FieldKey
deriving DecidableEq, Repr

/-- filterState (connector.js:505-529): for every changed field, refilter
the raw value — artist/track/album through the metadata filter falling back
to the default, currentTime/duration through the bad-time-values guard
falling back to the default, trackArt nulled when it is a default
placeholder — and store the result into the filtered snapshot. -/
def filterState (c : Conn) (cur filtered : TState) (changedFields : List FieldKey) :
    TState :=
  changedFields.foldl (fun f k =>
    let fieldValue := cur.get k
    let fieldValue :=
      match k with
      | FieldKey.artist => jsOr (filterField c.transforms k fieldValue) (defaultState.get k)
      | FieldKey.track => jsOr (filterField c.transforms k fieldValue) (defaultState.get k)
      | FieldKey.album => jsOr (filterField c.transforms k fieldValue) (defaultState.get k)
      | FieldKey.currentTime => jsOr (escapeBadTimeValues fieldValue) (defaultState.get k)
      | FieldKey.duration => jsOr (escapeBadTimeValues fieldValue) (defaultState.get k)
      | FieldKey.trackArt => if c.isTrackArtDefault fieldValue then JSVal.null else fieldValue
      | _ => fieldValue
    match k with
    | FieldKey.track => { f with track := fieldValue }
    | FieldKey.artist => { f with artist := fieldValue }
    | FieldKey.album => { f with album := fieldValue }
    | FieldKey.uniqueID => { f with uniqueID := fieldValue }
    | FieldKey.duration => { f with duration := fieldValue }
    | FieldKey.currentTime => { f with currentTime := fieldValue }
    | FieldKey.isPlaying => { f with isPlaying := fieldValue }
    | FieldKey.trackArt => { f with trackArt := fieldValue }) filtered

/-- stateChangedWorker (connector.js:463-499): read the current state from
the extractor, diff it (after default substitution) against the raw
snapshot, and if any field changed, refilter the changed fields and invoke
the reactor callback (when attached) with the filtered snapshot and the
changed-field list.  Returns the new connector state and the list of
reactor invocations performed. -/
def stateChangedWorker (c : Conn) (e : Extractor) (st : ConnState) :
    ConnState × List ReactorCall :=
  let ns := getCurrentState e
  let changedFields := changedFieldsOf ns st.currentState
  let cur := updatedCurrent ns
  if changedFields.isEmpty then
    ({ st with currentState := cur }, [])
  else
    let filtered := filterState c cur st.filteredState changedFields
    ({ st with currentState := cur, filteredState := filtered },
      if c.hasReactorCallback then
        [{ payload := some filtered, changedFields := changedFields }]
      else [])

/-- resetState (connector.js:574-584): a no-op when the reset flag is set;
otherwise invoke the reactor callback (when attached) with an empty object
and Object.keys(defaultState), and set the flag.  The snapshots are not
touched. -/
def resetState (c : Conn) (st : ConnState) : ConnState × List ReactorCall :=
  if st.isStateReset then (st, [])
  else
    ({ st with isStateReset := true },
      if c.hasReactorCallback then
        [{ payload := none, changedFields := FieldKey.all }]
      else [])

/-- Modelled from the spec: Util.throttle is repository code not present
under src/.  Per the spec, the throttle guarantees at most one evaluation
per fixed 500 ms window per instance; a call outside any active window runs
at once and opens a window, and calls arriving inside an active window are
coalesced into a single trailing invocation at the window end (the pending
flag is re-armed, never stacked).  windowEnd is the end instant of the
active window (a window is active at time t when t < windowEnd); pending
records whether a trailing invocation is scheduled for windowEnd. -/
structure ThrottleState where
  windowEnd : Nat
  pending : Bool
deriving DecidableEq, Repr

/-- The state of one connector instance together with its throttle. -/
structure SysState where
  conn : ConnState
  thr : ThrottleState
deriving DecidableEq, Repr

/-- The observable outcome of one scheduler step: the successor state, the
reactor invocations performed, and (as instrumentation for the temporal
claims) whether stateChangedWorker executed during the step. -/
structure StepOut where
  st : SysState
  calls : List ReactorCall
  ran : Bool
deriving DecidableEq, Repr

/-- A throttled call of the worker at time now (Modelled from the spec:
Util.throttle, see ThrottleState): outside an active window the call runs
immediately and opens a new 500 ms window; inside an active window it only
(re-)arms the trailing invocation.  Returns the throttle state and whether
the wrapped function runs now. -/
def throttleCall (ts : ThrottleState) (now : Nat) : ThrottleState × Bool :=
  if ts.windowEnd ≤ now then ({ windowEnd := now + 500, pending := false }, true)
  else ({ ts with pending := true }, false)

/-- The throttle timer firing at the end of the active window (Modelled
from the spec: Util.throttle, see ThrottleState): a pending trailing call
runs and opens the next window; otherwise nothing happens. -/
def throttleFire (ts : ThrottleState) (now : Nat) : ThrottleState × Bool :=
  if ts.pending && ts.windowEnd ≤ now then
    ({ windowEnd := now + 500, pending := false }, true)
  else (ts, false)

/-- onStateChanged (connector.js:541-568) at time now, with the extractor
reading e: the scrobbling-allowed gate triggers resetState and stops; the
state-change-allowed gate ignores the signal; otherwise the reset flag is
cleared and either the worker runs immediately (when the freshly read
isPlaying differs from the stored one) or a throttled run is requested. -/
def onStateChanged (c : Conn) (e : Extractor) (now : Nat) (st : SysState) :
    StepOut :=
  if !e.isScrobblingAllowed then
    let r := resetState c st.conn
    { st := { st with conn := r.1 }, calls := r.2, ran := false }
  else if !e.isStateChangeAllowed then
    { st := st, calls := [], ran := false }
  else
    let st1 : SysState := { st with conn := { st.conn with isStateReset := false } }
    if JSVal.bool e.readIsPlaying != st1.conn.currentState.isPlaying then
      let r := stateChangedWorker c e st1.conn
      { st := { st1 with conn := r.1 }, calls := r.2, ran := true }
    else
      let t := throttleCall st1.thr now
      if t.2 then
        let r := stateChangedWorker c e st1.conn
        { st := { conn := r.1, thr := t.1 }, calls := r.2, ran := true }
      else
        { st := { st1 with thr := t.1 }, calls := [], ran := false }

/-- The throttle timer firing at time now with the extractor reading e at
that instant: a pending trailing call executes stateChangedWorker on the
then-current state. -/
def timerFire (c : Conn) (e : Extractor) (now : Nat) (st : SysState) :
    StepOut :=
  let t := throttleFire st.thr now
  if t.2 then
    let r := stateChangedWorker c e st.conn
    { st := { conn := r.1, thr := t.1 }, calls := r.2, ran := true }
  else
    { st := { st with thr := t.1 }, calls := [], ran := false }

/-- Run a list of change signals (extractor reading, arrival time) through
onStateChanged, accumulating the reactor invocations and the number of
worker executions. -/
def runSignals (c : Conn) (evs : List (Extractor × Nat)) (st : SysState) :
    SysState × List ReactorCall × Nat :=
  evs.foldl (fun acc ev =>
    let out := onStateChanged c ev.1 ev.2 acc.1
    (out.st, acc.2.1 ++ out.calls, acc.2.2 + (if out.ran then 1 else 0)))
    (st, [], 0)

/-- Modelled from the spec: SongPipeline.process is repository code not
present under src/ (only tests/background/pipeline/SongPipeline.spec.ts
is).  Per the spec, a pipeline holds an ordered list of stages; process
runs them strictly sequentially in registration order, each awaited to
completion; a stage mutates the track in place and may fail.  A stage is
modelled as a function from the track to the mutated track together with an
optional error; on the first error the remaining stages are aborted and the
error is surfaced, the mutations already applied staying in place. -/
def SongPipeline.process {T E : Type} (stages : List (T → T × Option E))
    (t : T) : T × Option E :=
  match stages with
  | [] => (t, none)
  | s :: rest =>
    match s t with
    | (t1, none) => SongPipeline.process rest t1
    | (t1, some err) => (t1, some err)

/-- A sample connector configuration: no site-specific transforms, no
default-art predicate, reactor callback attached. -/
def connW : Conn :=
  { transforms := fun _ => [], isTrackArtDefault := fun _ => false,
    hasReactorCallback := true }

/-- An extractor reading where every getter is empty, playback reads as
playing and both gates pass. -/
def extractorEmpty : Extractor :=
  { getTrack := JSVal.null, getArtist := JSVal.null, getAlbum := JSVal.null,
    getUniqueID := JSVal.null, getDuration := JSVal.null,
    getCurrentTime := JSVal.null, getRemainingTime := JSVal.null,
    getArtistTrack := (JSVal.null, JSVal.null),
    getTimeInfo := (JSVal.null, JSVal.null),
    readIsPlaying := true, getTrackArt := JSVal.null,
    isScrobblingAllowed := true, isStateChangeAllowed := true }

/-- The empty reading with playback reading as paused. -/
def extractorPaused : Extractor := { extractorEmpty with readIsPlaying := false }

/-- The empty reading with the scrobbling-allowed gate closed. -/
def extractorNoScrobble : Extractor :=
  { extractorEmpty with isScrobblingAllowed := false }

/-- The empty reading with the state-change-allowed gate closed. -/
def extractorNoChange : Extractor :=
  { extractorEmpty with isStateChangeAllowed := false }

/-- The C3 scenario reading: direct currentTime and duration getters empty,
remaining time 30, timeInfo empty. -/
def extractorRemaining30 : Extractor :=
  { extractorEmpty with getRemainingTime := JSVal.num 30 }

/-- The C3 scenario reading with the fresh duration getter returning 200
alongside remaining time 30. -/
def extractorRemaining30Dur200 : Extractor :=
  { extractorEmpty with
    getRemainingTime := JSVal.num 30,
    getDuration := JSVal.num 200 }

/-- The all-default connector state with the reset flag cleared. -/
def connStateFresh : ConnState :=
  { currentState := defaultState, filteredState := defaultState,
    isStateReset := false }

/-- The all-default connector state with the reset flag set. -/
def connStateReset : ConnState := { connStateFresh with isStateReset := true }

/-- A connector state holding a non-default track name. -/
def connStateTrackA : ConnState :=
  { currentState := { defaultState with track := JSVal.str "A" },
    filteredState := { defaultState with track := JSVal.str "A" },
    isStateReset := false }

/-- A connector state whose raw snapshot holds duration 200 (the prior
snapshot of the C3 scenario). -/
def connStateDur200 : ConnState :=
  { currentState := { defaultState with duration := JSVal.num 200 },
    filteredState := defaultState, isStateReset := false }

/-- The idle throttle. -/
def throttleIdle : ThrottleState := { windowEnd := 0, pending := false }

/-- The all-default system state with an idle throttle. -/
def sysFresh : SysState := { conn := connStateFresh, thr := throttleIdle }

/-- A system state whose stored playback flag is paused. -/
def sysPaused : SysState :=
  { conn := { currentState := { defaultState with isPlaying := JSVal.bool false },
              filteredState := { defaultState with isPlaying := JSVal.bool false },
              isStateReset := false },
    thr := throttleIdle }

/-- A fresh extraction holding a zero currentTime and an empty track
string (both falsy, neither the boolean false). -/
def nsFalsy : TState :=
  { defaultState with currentTime := JSVal.num 0, track := JSVal.str "" }

/-- A pipeline stage that increments a numeric track and succeeds. -/
def stageInc : Nat → Nat × Option String := fun n => (n + 1, none)

/-- A pipeline stage that doubles a numeric track and rejects. -/
def stageBoom : Nat → Nat × Option String := fun n => (n * 2, some "boom")

/-- A pipeline stage that would add 100, placed after the rejecting one. -/
def stageLate : Nat → Nat × Option String := fun n => (n + 100, none)

lemma updatedCurrent_get (ns : TState) (k : FieldKey) :
    (updatedCurrent ns).get k = substValue ns k := by
  cases k <;> rfl

lemma changedFieldsOf_updated (ns : TState) :
    changedFieldsOf ns (updatedCurrent ns) = [] := by
  simp [changedFieldsOf, FieldKey.all, updatedCurrent_get]

lemma worker_currentState (c : Conn) (e : Extractor) (st : ConnState) :
    (stateChangedWorker c e st).1.currentState =
      updatedCurrent (getCurrentState e) := by
  unfold stateChangedWorker
  dsimp only
  split <;> rfl

lemma worker_isStateReset (c : Conn) (e : Extractor) (st : ConnState) :
    (stateChangedWorker c e st).1.isStateReset = st.isStateReset := by
  unfold stateChangedWorker
  dsimp only
  split <;> rfl

lemma worker_of_empty (c : Conn) (e : Extractor) (st : ConnState)
    (h : changedFieldsOf (getCurrentState e) st.currentState = []) :
    stateChangedWorker c e st =
      ({ st with currentState := updatedCurrent (getCurrentState e) }, []) := by
  unfold stateChangedWorker
  simp [h]

lemma getCurrentState_isPlaying (e : Extractor) :
    (getCurrentState e).isPlaying = JSVal.bool e.readIsPlaying := by
  unfold getCurrentState
  simp only [apply_ite TState.isPlaying]
  simp [ite_self]

lemma substValue_bool (ns : TState) (k : FieldKey) (b : Bool)
    (h : ns.get k = JSVal.bool b) :
    substValue ns k = JSVal.bool b := by
  cases b <;> simp [substValue, truthy, h]

lemma worker_isPlaying (c : Conn) (e : Extractor) (st : ConnState) :
    (stateChangedWorker c e st).1.currentState.isPlaying =
      JSVal.bool e.readIsPlaying := by
  have h1 : (updatedCurrent (getCurrentState e)).isPlaying =
      substValue (getCurrentState e) FieldKey.isPlaying := rfl
  rw [worker_currentState, h1,
    substValue_bool (getCurrentState e) FieldKey.isPlaying e.readIsPlaying
      (getCurrentState_isPlaying e)]

/-- A fresh extraction holding a zero duration and the boolean-false
playback flag. -/
def nsFalsyDur : TState :=
  { defaultState with duration := JSVal.num 0, isPlaying := JSVal.bool false }

/-- C1 counterexample: from a connector state whose raw and filtered
snapshots hold a non-default track, resetState leaves both snapshots
different from the all-default TrackState — it does not reinitialize
them. -/
theorem resetState_all_default_counterexample :
    (resetState connW connStateTrackA).1.currentState ≠ defaultState ∧
    (resetState connW connStateTrackA).1.filteredState ≠ defaultState := by
  decide

/-- C1 (amended): every resetState call leaves the raw current-state
snapshot and the filtered snapshot exactly as they were; the
default-everything delivery exists only in the reactor-callback payload,
not in the snapshots. -/
theorem resetState_preserves_snapshots (c : Conn) (st : ConnState) :
    (resetState c st).1.currentState = st.currentState ∧
    (resetState c st).1.filteredState = st.filteredState := by
  unfold resetState
  split <;> exact ⟨rfl, rfl⟩

/-- C7: executing stateChangedWorker twice in succession with the extractor
returning identical outputs both times makes the second execution a no-op:
it computes an empty ChangeSet, leaves both snapshots (and the whole
connector state) unchanged, and performs no reactor invocation. -/
theorem stateChangedWorker_repeat_noop (c : Conn) (e : Extractor)
    (st : ConnState) :
    stateChangedWorker c e (stateChangedWorker c e st).1 =
      ((stateChangedWorker c e st).1, []) := by
  have hcur := worker_currentState c e st
  have h1 : changedFieldsOf (getCurrentState e)
      (stateChangedWorker c e st).1.currentState = [] := by
    rw [hcur]
    exact changedFieldsOf_updated (getCurrentState e)
  rw [worker_of_empty c e (stateChangedWorker c e st).1 h1]
  have h2 : ∀ cs : ConnState,
      cs.currentState = updatedCurrent (getCurrentState e) →
      ({ cs with currentState := updatedCurrent (getCurrentState e) } :
        ConnState) = cs := by
    intro cs h
    cases cs
    simp_all
  rw [h2 _ hcur]

/-- C8: for a changed artist, track, or album field whose raw value is
absent or the empty string, or whose filter output is the empty string,
filterState stores the field default null in the filtered snapshot, never
an empty string. -/
theorem filterState_default_on_empty (c : Conn) (cur fs : TState)
    (k : FieldKey)
    (hk : k = FieldKey.artist ∨ k = FieldKey.track ∨ k = FieldKey.album)
    (h : cur.get k = JSVal.null ∨ cur.get k = JSVal.str "" ∨
      filterField c.transforms k (cur.get k) = JSVal.str "") :
    (filterState c cur fs [k]).get k = JSVal.null := by
  have hg : (filterState c cur fs [k]).get k =
      jsOr (filterField c.transforms k (cur.get k)) JSVal.null := by
    rcases hk with rfl | rfl | rfl <;> rfl
  rw [hg]
  rcases h with h | h | h <;> rw [h] <;> rfl

/-- C8 witness: the artist field of the all-default raw snapshot is absent,
and filtering it stores null. -/
theorem filterState_default_on_empty_witness :
    (filterState connW defaultState defaultState
      [FieldKey.artist]).get FieldKey.artist = JSVal.null :=
  filterState_default_on_empty connW defaultState defaultState
    FieldKey.artist (Or.inl rfl) (Or.inl rfl)

/-- C9: a SongPipeline.process run whose stages up to some stage succeed
and where that stage rejects aborts every later stage (the result does not
depend on them), surfaces that stage's error to the caller, and keeps the
mutations already applied (the resulting track is exactly the one the
failing stage left behind). -/
theorem songPipeline_stage_failure {T E : Type}
    (pre : List (T → T × Option E)) (s : T → T × Option E)
    (rest : List (T → T × Option E)) (t t1 t2 : T) (err : E)
    (hpre : SongPipeline.process pre t = (t1, none))
    (hs : s t1 = (t2, some err)) :
    SongPipeline.process (pre ++ s :: rest) t = (t2, some err) := by
  induction pre generalizing t with
  | nil =>
      have ht : t = t1 := by
        simpa [SongPipeline.process] using hpre
      subst ht
      simp [SongPipeline.process, hs]
  | cons a as ih =>
      simp only [List.cons_append]
      unfold SongPipeline.process at hpre ⊢
      rcases ha : a t with ⟨ta, oe⟩
      rw [ha] at hpre
      cases oe with
      | none => exact ih ta hpre
      | some e2 => simp at hpre

/-- C9 witness: a three-stage pipeline over numeric tracks where the first
stage increments, the second doubles and rejects, and the third would add
100: the run stops at the rejection with the mutations of the first two
stages applied. -/
theorem songPipeline_stage_failure_witness :
    SongPipeline.process [stageInc, stageBoom, stageLate] 1 =
      (4, some "boom") :=
  songPipeline_stage_failure [stageInc] stageBoom [stageLate] 1 2 4 "boom"
    rfl rfl

/-- C10: in the diff loop, a freshly extracted value that is falsy but not
the boolean false is replaced by the field default: a zero currentTime or
duration and an empty-string text field are stored as null, the boolean
false isPlaying is preserved, a transition from the stored default to such
a falsy value never enters the ChangeSet, and an evaluation whose ChangeSet
is empty performs no reactor invocation. -/
theorem worker_falsy_default_substitution :
    (∀ ns : TState, ns.currentTime = JSVal.num 0 →
        substValue ns FieldKey.currentTime = JSVal.null) ∧
    (∀ ns : TState, ns.duration = JSVal.num 0 →
        substValue ns FieldKey.duration = JSVal.null) ∧
    (∀ (ns : TState) (k : FieldKey),
        k = FieldKey.track ∨ k = FieldKey.artist ∨ k = FieldKey.album ∨
          k = FieldKey.uniqueID ∨ k = FieldKey.trackArt →
        ns.get k = JSVal.str "" → substValue ns k = JSVal.null) ∧
    (∀ ns : TState, ns.isPlaying = JSVal.bool false →
        substValue ns FieldKey.isPlaying = JSVal.bool false) ∧
    (∀ (ns cur : TState) (k : FieldKey), cur.get k = defaultState.get k →
        ns.get k = JSVal.num 0 ∨ ns.get k = JSVal.str "" →
        k ∉ changedFieldsOf ns cur) ∧
    (∀ (c : Conn) (e : Extractor) (st : ConnState),
        changedFieldsOf (getCurrentState e) st.currentState = [] →
        (stateChangedWorker c e st).2 = []) := by
  refine ⟨?_, ?_, ?_, ?_, ?_, ?_⟩
  · intro ns h
    simp [substValue, TState.get, truthy, h, defaultState]
  · intro ns h
    simp [substValue, TState.get, truthy, h, defaultState]
  · intro ns k hk h
    rcases hk with rfl | rfl | rfl | rfl | rfl <;>
      simp only [TState.get] at h <;>
      simp [substValue, TState.get, truthy, h, defaultState]
  · intro ns h
    simp [substValue, TState.get, truthy, h]
  · intro ns cur k h1 h2
    have hs : substValue ns k = defaultState.get k := by
      rcases h2 with h | h <;> simp [substValue, truthy, h]
    simp [changedFieldsOf, List.mem_filter, hs, h1]
  · intro c e st h
    rw [worker_of_empty c e st h]

/-- C10 witness: concrete falsy extractions are stored as defaults, a
default-to-falsy transition stays out of the ChangeSet, and the empty
evaluation performs no reactor invocation. -/
theorem worker_falsy_default_substitution_witness :
    substValue nsFalsy FieldKey.currentTime = JSVal.null ∧
    substValue nsFalsyDur FieldKey.duration = JSVal.null ∧
    substValue nsFalsy FieldKey.track = JSVal.null ∧
    substValue nsFalsyDur FieldKey.isPlaying = JSVal.bool false ∧
    FieldKey.track ∉ changedFieldsOf nsFalsy defaultState ∧
    (stateChangedWorker connW extractorEmpty connStateFresh).2 = [] :=
  ⟨worker_falsy_default_substitution.1 nsFalsy rfl,
   worker_falsy_default_substitution.2.1 nsFalsyDur rfl,
   worker_falsy_default_substitution.2.2.1 nsFalsy FieldKey.track
     (Or.inl rfl) rfl,
   worker_falsy_default_substitution.2.2.2.1 nsFalsyDur rfl,
   worker_falsy_default_substitution.2.2.2.2.1 nsFalsy defaultState
     FieldKey.track rfl (Or.inr rfl),
   worker_falsy_default_substitution.2.2.2.2.2 connW extractorEmpty
     connStateFresh (by decide)⟩

lemma onStateChanged_nonEdge_run (c : Conn) (e : Extractor) (now : Nat)
    (sys : SysState) (h1 : e.isScrobblingAllowed = true)
    (h2 : e.isStateChangeAllowed = true)
    (h3 : JSVal.bool e.readIsPlaying = sys.conn.currentState.isPlaying)
    (h4 : sys.thr.windowEnd ≤ now) :
    onStateChanged c e now sys =
      { st := { conn := (stateChangedWorker c e
                          { sys.conn with isStateReset := false }).1,
                thr := { windowEnd := now + 500, pending := false } },
        calls := (stateChangedWorker c e
                   { sys.conn with isStateReset := false }).2,
        ran := true } := by
  have h3b : (JSVal.bool e.readIsPlaying !=
      sys.conn.currentState.isPlaying) = false := by
    simp [h3]
  simp [onStateChanged, throttleCall, h1, h2, h3b, h4]

lemma onStateChanged_nonEdge_defer (c : Conn) (e : Extractor) (now : Nat)
    (sys : SysState) (h1 : e.isScrobblingAllowed = true)
    (h2 : e.isStateChangeAllowed = true)
    (h3 : JSVal.bool e.readIsPlaying = sys.conn.currentState.isPlaying)
    (h4 : ¬ sys.thr.windowEnd ≤ now) :
    onStateChanged c e now sys =
      { st := { conn := { sys.conn with isStateReset := false },
                thr := { sys.thr with pending := true } },
        calls := [],
        ran := false } := by
  have h3b : (JSVal.bool e.readIsPlaying !=
      sys.conn.currentState.isPlaying) = false := by
    simp [h3]
  simp [onStateChanged, throttleCall, h1, h2, h3b, h4]

lemma timerFire_pending (c : Conn) (e : Extractor) (now : Nat)
    (sys : SysState) (h : sys.thr.pending = true)
    (h2 : sys.thr.windowEnd ≤ now) :
    timerFire c e now sys =
      { st := { conn := (stateChangedWorker c e sys.conn).1,
                thr := { windowEnd := now + 500, pending := false } },
        calls := (stateChangedWorker c e sys.conn).2,
        ran := true } := by
  simp [timerFire, throttleFire, h, h2]

/-- C3 counterexample: with both direct time getters absent, remaining time
30, timeInfo empty, and the previously stored raw snapshot holding
duration 200, the resolved raw state has currentTime absent (and stored as
null after the evaluation), not 170: the fallback never consults the prior
snapshot. -/
theorem currentTime_prior_duration_counterexample :
    (getCurrentState extractorRemaining30).currentTime = JSVal.null ∧
    (stateChangedWorker connW extractorRemaining30
      connStateDur200).1.currentState.currentTime = JSVal.null ∧
    JSVal.null ≠ JSVal.num 170 := by
  decide

/-- C3 (amended): the currentTime fallback duration − |remainingTime| uses
the duration extracted in the same evaluation: with the direct currentTime
getter absent and remaining time 30, a fresh duration of 200 resolves
currentTime to 170, while an absent fresh duration (with empty timeInfo)
leaves currentTime absent regardless of any previously stored duration. -/
theorem currentTime_fresh_duration_fallback (e1 e2 : Extractor)
    (h1 : e1.getCurrentTime = JSVal.null)
    (h2 : e1.getRemainingTime = JSVal.num 30)
    (h3 : e1.getDuration = JSVal.num 200)
    (g1 : e2.getCurrentTime = JSVal.null) (g2 : e2.getDuration = JSVal.null)
    (g3 : e2.getRemainingTime = JSVal.num 30)
    (g4 : e2.getTimeInfo = (JSVal.null, JSVal.null)) :
    (getCurrentState e1).currentTime = JSVal.num 170 ∧
    (getCurrentState e2).currentTime = JSVal.null := by
  constructor
  · unfold getCurrentState
    simp only [apply_ite TState.currentTime, apply_ite TState.duration,
      apply_ite TState.artist, apply_ite TState.track]
    simp [h1, h2, h3, truthy, jsSub, jsAbs, ite_self]
  · unfold getCurrentState
    simp only [apply_ite TState.currentTime, apply_ite TState.duration,
      apply_ite TState.artist, apply_ite TState.track]
    simp [g1, g2, g3, g4, truthy, jsSub, jsAbs, ite_self]

/-- C3 witness: concrete extractor readings realizing both halves of the
amended statement. -/
theorem currentTime_fresh_duration_fallback_witness :
    (getCurrentState extractorRemaining30Dur200).currentTime =
      JSVal.num 170 ∧
    (getCurrentState extractorRemaining30).currentTime = JSVal.null :=
  currentTime_fresh_duration_fallback extractorRemaining30Dur200
    extractorRemaining30 rfl rfl rfl rfl rfl rfl rfl

/-- C4: the two gates are consulted in order: a reading with scrobbling
disallowed triggers resetState and stops (no evaluation, immediate or
throttled, the throttle untouched); with scrobbling allowed but state
change disallowed the signal is ignored entirely — no evaluation and no
reset, the whole system state unchanged. -/
theorem onStateChanged_gate_order (c : Conn) (e : Extractor) (now : Nat)
    (sys : SysState) :
    (e.isScrobblingAllowed = false →
      onStateChanged c e now sys =
        { st := { sys with conn := (resetState c sys.conn).1 },
          calls := (resetState c sys.conn).2, ran := false }) ∧
    (e.isScrobblingAllowed = true → e.isStateChangeAllowed = false →
      onStateChanged c e now sys =
        { st := sys, calls := [], ran := false }) := by
  constructor
  · intro h
    simp [onStateChanged, h]
  · intro h1 h2
    simp [onStateChanged, h1, h2]

/-- C4 witness: the gate behaviour at concrete readings with each gate
closed. -/
theorem onStateChanged_gate_order_witness :
    onStateChanged connW extractorNoScrobble 0 sysFresh =
      { st := { sysFresh with conn := (resetState connW sysFresh.conn).1 },
        calls := (resetState connW sysFresh.conn).2, ran := false } ∧
    onStateChanged connW extractorNoChange 0 sysFresh =
      { st := sysFresh, calls := [], ran := false } :=
  ⟨(onStateChanged_gate_order connW extractorNoScrobble 0 sysFresh).1 rfl,
   (onStateChanged_gate_order connW extractorNoChange 0 sysFresh).2 rfl rfl⟩

/-- C5: a gate-passing signal whose freshly read isPlaying differs from the
stored currentState.isPlaying runs stateChangedWorker immediately and
synchronously, bypassing (and leaving untouched) the throttle; and a
play-pause-play toggle sequence arriving inside one 500 ms window from a
paused state yields three immediate evaluations with three reactor
invocations whose filtered payloads reflect each isPlaying value in
order. -/
theorem isPlaying_edge_immediate :
    (∀ (c : Conn) (e : Extractor) (now : Nat) (sys : SysState),
      e.isScrobblingAllowed = true → e.isStateChangeAllowed = true →
      JSVal.bool e.readIsPlaying ≠ sys.conn.currentState.isPlaying →
      onStateChanged c e now sys =
        { st := { conn := (stateChangedWorker c e
                            { sys.conn with isStateReset := false }).1,
                  thr := sys.thr },
          calls := (stateChangedWorker c e
                     { sys.conn with isStateReset := false }).2,
          ran := true }) ∧
    ((runSignals connW [(extractorEmpty, 0), (extractorPaused, 10),
        (extractorEmpty, 20)] sysPaused).2.2 = 3 ∧
      ((runSignals connW [(extractorEmpty, 0), (extractorPaused, 10),
          (extractorEmpty, 20)] sysPaused).2.1.map
            (fun r => r.payload.map TState.isPlaying)) =
        [some (JSVal.bool true), some (JSVal.bool false),
          some (JSVal.bool true)] ∧
      (runSignals connW [(extractorEmpty, 0), (extractorPaused, 10),
        (extractorEmpty, 20)] sysPaused).1.thr = sysPaused.thr) := by
  constructor
  · intro c e now sys h1 h2 h3
    have h3b : (JSVal.bool e.readIsPlaying !=
        sys.conn.currentState.isPlaying) = true := by
      simp [h3]
    simp [onStateChanged, h1, h2, h3b]
  · refine ⟨by decide, by decide, by decide⟩

/-- C5 witness: the first toggle of the scenario, applied through the
immediate-bypass theorem at concrete inputs. -/
theorem isPlaying_edge_immediate_witness :
    onStateChanged connW extractorEmpty 0 sysPaused =
      { st := { conn := (stateChangedWorker connW extractorEmpty
                          { sysPaused.conn with isStateReset := false }).1,
                thr := sysPaused.thr },
        calls := (stateChangedWorker connW extractorEmpty
                   { sysPaused.conn with isStateReset := false }).2,
        ran := true } :=
  isPlaying_edge_immediate.1 connW extractorEmpty 0 sysPaused rfl rfl
    (by decide)

/-- C2 counterexample: after a reset has invoked the reactor callback, a
gate-passing signal whose evaluation runs but produces an empty ChangeSet
(no real state change, no state-change reactor invocation) already clears
the suppression flag, so the next resetState call invokes the reactor
callback again even though no evaluation produced a non-empty
ChangeSet. -/
theorem reset_suppression_counterexample :
    (resetState connW connStateFresh).2 =
      [{ payload := none, changedFields := FieldKey.all }] ∧
    (onStateChanged connW extractorEmpty 0
      { conn := (resetState connW connStateFresh).1,
        thr := throttleIdle }).ran = true ∧
    (onStateChanged connW extractorEmpty 0
      { conn := (resetState connW connStateFresh).1,
        thr := throttleIdle }).calls = [] ∧
    (resetState connW (onStateChanged connW extractorEmpty 0
      { conn := (resetState connW connStateFresh).1,
        thr := throttleIdle }).st.conn).2 =
      [{ payload := none, changedFields := FieldKey.all }] := by
  refine ⟨by decide, by decide, by decide, by decide⟩

/-- C2 (amended): once the reset flag is set, every further resetState call
is suppressed entirely (no invocation, no state change); a resetState call
with the flag clear and a reactor attached invokes the callback exactly
once with the default-everything payload and sets the flag; and any
onStateChanged signal that passes both gates clears the flag — whether or
not its evaluation produces a non-empty ChangeSet — so the next resetState
invokes the callback exactly once. -/
theorem reset_flag_discipline (c : Conn) (st : ConnState) (e : Extractor)
    (now : Nat) (sys : SysState) :
    (st.isStateReset = true → resetState c st = (st, [])) ∧
    (st.isStateReset = false → c.hasReactorCallback = true →
      resetState c st = ({ st with isStateReset := true },
        [{ payload := none, changedFields := FieldKey.all }])) ∧
    (e.isScrobblingAllowed = true → e.isStateChangeAllowed = true →
      (onStateChanged c e now sys).st.conn.isStateReset = false) := by
  refine ⟨?_, ?_, ?_⟩
  · intro h
    simp [resetState, h]
  · intro h1 h2
    simp [resetState, h1, h2]
  · intro h1 h2
    unfold onStateChanged
    rw [h1, h2]
    simp only [Bool.not_true, Bool.false_eq_true, if_false]
    split
    · rw [worker_isStateReset]
    · split
      · rw [worker_isStateReset]
      · rfl

/-- C2 witness: the discipline at concrete states — a suppressed reset, a
delivering reset, and a gate-passing empty signal clearing the flag. -/
theorem reset_flag_discipline_witness :
    resetState connW connStateReset = (connStateReset, []) ∧
    resetState connW connStateFresh =
      ({ connStateFresh with isStateReset := true },
        [{ payload := none, changedFields := FieldKey.all }]) ∧
    (onStateChanged connW extractorEmpty 0 sysFresh).st.conn.isStateReset =
      false :=
  ⟨(reset_flag_discipline connW connStateReset extractorEmpty 0 sysFresh).1
      rfl,
   (reset_flag_discipline connW connStateFresh extractorEmpty 0 sysFresh).2.1
      rfl rfl,
   (reset_flag_discipline connW connStateFresh extractorEmpty 0 sysFresh).2.2
      rfl rfl⟩

/-- C6: for gate-passing signals that are not play/pause edges, at most one
evaluation occurs per fixed 500 ms window: the window-opening signal
evaluates at once; two further such signals inside the active window run no
evaluation, produce no reactor call, and arm (re-arm, never stack) a single
trailing invocation; the timer firing at the window end runs exactly that
one trailing evaluation and opens the next window. -/
theorem throttle_window_discipline (c : Conn) (e1 e2 e3 ef : Extractor)
    (t1 t2 t3 : Nat) (sys : SysState) (o1 o2 o3 o4 : StepOut)
    (hg1 : e1.isScrobblingAllowed = true)
    (hg1b : e1.isStateChangeAllowed = true)
    (hg2 : e2.isScrobblingAllowed = true)
    (hg2b : e2.isStateChangeAllowed = true)
    (hg3 : e3.isScrobblingAllowed = true)
    (hg3b : e3.isStateChangeAllowed = true)
    (hp : sys.conn.currentState.isPlaying = JSVal.bool true)
    (hp1 : e1.readIsPlaying = true) (hp2 : e2.readIsPlaying = true)
    (hp3 : e3.readIsPlaying = true)
    (hidle : sys.thr.windowEnd ≤ t1)
    (h12 : t1 ≤ t2) (h2w : t2 < t1 + 500) (h23 : t2 ≤ t3)
    (h3w : t3 < t1 + 500)
    (ho1 : o1 = onStateChanged c e1 t1 sys)
    (ho2 : o2 = onStateChanged c e2 t2 o1.st)
    (ho3 : o3 = onStateChanged c e3 t3 o2.st)
    (ho4 : o4 = timerFire c ef (t1 + 500) o3.st) :
    o1.ran = true ∧ o2.ran = false ∧ o3.ran = false ∧
    o2.calls = [] ∧ o3.calls = [] ∧
    o2.st.thr = { windowEnd := t1 + 500, pending := true } ∧
    o3.st.thr = { windowEnd := t1 + 500, pending := true } ∧
    o4.ran = true ∧
    o4.st.thr = { windowEnd := t1 + 1000, pending := false } := by
  have e1p : JSVal.bool e1.readIsPlaying = sys.conn.currentState.isPlaying := by
    rw [hp1, hp]
  rw [onStateChanged_nonEdge_run c e1 t1 sys hg1 hg1b e1p hidle] at ho1
  have ho1ran : o1.ran = true := by rw [ho1]
  have ho1thr : o1.st.thr = { windowEnd := t1 + 500, pending := false } := by
    rw [ho1]
  have ho1play : o1.st.conn.currentState.isPlaying = JSVal.bool true := by
    rw [ho1]
    show (stateChangedWorker c e1
      { sys.conn with isStateReset := false }).1.currentState.isPlaying = _
    rw [worker_isPlaying, hp1]
  have e2p : JSVal.bool e2.readIsPlaying = o1.st.conn.currentState.isPlaying := by
    rw [hp2, ho1play]
  have h4b : ¬ o1.st.thr.windowEnd ≤ t2 := by
    rw [ho1thr]
    show ¬ t1 + 500 ≤ t2
    omega
  rw [onStateChanged_nonEdge_defer c e2 t2 o1.st hg2 hg2b e2p h4b] at ho2
  have ho2ran : o2.ran = false := by rw [ho2]
  have ho2calls : o2.calls = [] := by rw [ho2]
  have ho2thr : o2.st.thr = { windowEnd := t1 + 500, pending := true } := by
    rw [ho2]
    show { o1.st.thr with pending := true } = _
    rw [ho1thr]
  have ho2play : o2.st.conn.currentState.isPlaying = JSVal.bool true := by
    rw [ho2]
    show o1.st.conn.currentState.isPlaying = _
    exact ho1play
  have e3p : JSVal.bool e3.readIsPlaying = o2.st.conn.currentState.isPlaying := by
    rw [hp3, ho2play]
  have h4c : ¬ o2.st.thr.windowEnd ≤ t3 := by
    rw [ho2thr]
    show ¬ t1 + 500 ≤ t3
    omega
  rw [onStateChanged_nonEdge_defer c e3 t3 o2.st hg3 hg3b e3p h4c] at ho3
  have ho3ran : o3.ran = false := by rw [ho3]
  have ho3calls : o3.calls = [] := by rw [ho3]
  have ho3thr : o3.st.thr = { windowEnd := t1 + 500, pending := true } := by
    rw [ho3]
    show { o2.st.thr with pending := true } = _
    rw [ho2thr]
  have hpend : o3.st.thr.pending = true := by rw [ho3thr]
  have hwend : o3.st.thr.windowEnd ≤ t1 + 500 := by
    rw [ho3thr]
  rw [timerFire_pending c ef (t1 + 500) o3.st hpend hwend] at ho4
  have ho4ran : o4.ran = true := by rw [ho4]
  have ho4thr : o4.st.thr = { windowEnd := t1 + 1000, pending := false } := by
    rw [ho4]
  exact ⟨ho1ran, ho2ran, ho3ran, ho2calls, ho3calls, ho2thr, ho3thr,
    ho4ran, ho4thr⟩

/-- C6 witness: four empty non-edge signals at 0, 100, 200 ms and the timer
firing at 500 ms, from the idle fresh state. -/
theorem throttle_window_discipline_witness :
    (onStateChanged connW extractorEmpty 100
      (onStateChanged connW extractorEmpty 0 sysFresh).st).ran = false ∧
    (timerFire connW extractorEmpty 500
      (onStateChanged connW extractorEmpty 200
        (onStateChanged connW extractorEmpty 100
          (onStateChanged connW extractorEmpty 0 sysFresh).st).st).st).ran =
      true := by
  have h := throttle_window_discipline connW extractorEmpty extractorEmpty
    extractorEmpty extractorEmpty 0 100 200 sysFresh
    (onStateChanged connW extractorEmpty 0 sysFresh)
    (onStateChanged connW extractorEmpty 100
      (onStateChanged connW extractorEmpty 0 sysFresh).st)
    (onStateChanged connW extractorEmpty 200
      (onStateChanged connW extractorEmpty 100
        (onStateChanged connW extractorEmpty 0 sysFresh).st).st)
    (timerFire connW extractorEmpty 500
      (onStateChanged connW extractorEmpty 200
        (onStateChanged connW extractorEmpty 100
          (onStateChanged connW extractorEmpty 0 sysFresh).st).st).st)
    rfl rfl rfl rfl rfl rfl rfl rfl rfl rfl (by decide) (by decide)
    (by decide) (by decide) (by decide) rfl rfl rfl rfl
  exact ⟨h.2.1, h.2.2.2.2.2.2.2.1⟩
